import Mathlib

/-!
Shallow embedding of src/customer_data_extractor.py.

The program manipulates dynamically typed values (ints, floats, strings,
None) read from nested dicts.  `PyVal` models that value space; exact
rationals stand in for IEEE floats, so the derived numeric fields are
modelled exactly.  pandas calls are modelled by their documented
semantics at the call sites the program uses.
-/

/-- A dynamically typed Python value as the extractor encounters them. -/
inductive PyVal where
  | none : PyVal
  | int : Int → PyVal
  | float : ℚ → PyVal
  | str : String → PyVal
deriving DecidableEq, Repr

/-- Characters of a string with leading and trailing whitespace removed, as
Python str.strip() does. -/
def trimChars (cs : List Char) : List Char :=
  ((cs.dropWhile Char.isWhitespace).reverse.dropWhile Char.isWhitespace).reverse

/-- str.strip() on a string value. -/
def pyStrip (s : String) : String := String.mk (trimChars s.toList)

/-- Numeric value of a list of decimal digits. -/
def digitsVal (cs : List Char) : Nat :=
  cs.foldl (fun n c => n * 10 + (c.toNat - 48)) 0

/-- Numeric value of a string of decimal digits. -/
def digitsToNat (s : String) : Nat := digitsVal s.toList

/-- True when the character list is nonempty and all decimal digits. -/
def digitsOnly (cs : List Char) : Bool :=
  !cs.isEmpty && cs.all (fun c => c.isDigit)

/-- Split a character list at every occurrence of the separator character. -/
def splitOnChar (c : Char) : List Char → List (List Char)
  | [] => [[]]
  | x :: xs =>
    match splitOnChar c xs with
    | [] => [[]]
    | y :: ys => if x = c then [] :: y :: ys else (x :: y) :: ys

/-- Sign and digits of an integer literal, as Python int() accepts after
stripping whitespace.  (Python additionally accepts underscores between
digits and non-ASCII digits; those inputs are outside this model.) -/
def parseIntChars : List Char → Option Int
  | '-' :: rest => if digitsOnly rest then Option.some (-(digitsVal rest : Int)) else Option.none
  | '+' :: rest => if digitsOnly rest then Option.some (digitsVal rest : Int) else Option.none
  | cs => if digitsOnly cs then Option.some (digitsVal cs : Int) else Option.none

/-- Model of Python int(s) for a string argument: surrounding whitespace is
ignored, an optional sign is followed by decimal digits; anything else raises
ValueError, modelled as Option.none. -/
def parseIntStr (s : String) : Option Int := parseIntChars (trimChars s.toList)

/-- Magnitude part of a float literal: digits, digits.digits, digits., or .digits. -/
def parseFloatMagChars (cs : List Char) : Option ℚ :=
  match splitOnChar '.' cs with
  | [a] => if digitsOnly a then Option.some (digitsVal a : ℚ) else Option.none
  | [a, b] =>
    if digitsOnly a && digitsOnly b then
      Option.some ((digitsVal a : ℚ) + (digitsVal b : ℚ) / ((10 : ℚ) ^ b.length))
    else if digitsOnly a && b.isEmpty then Option.some (digitsVal a : ℚ)
    else if a.isEmpty && digitsOnly b then
      Option.some ((digitsVal b : ℚ) / ((10 : ℚ) ^ b.length))
    else Option.none
  | _ => Option.none

/-- Optional sign in front of a float magnitude. -/
def parseFloatChars : List Char → Option ℚ
  | '-' :: rest => (parseFloatMagChars rest).map (fun q => -q)
  | '+' :: rest => parseFloatMagChars rest
  | cs => parseFloatMagChars cs

/-- Model of Python float(s) for a string argument: optional sign and a
decimal literal after stripping whitespace; anything else raises ValueError,
modelled as Option.none.  (Exponent forms and the inf/nan literals are
outside this model.) -/
def parseFloatStr (s : String) : Option ℚ := parseFloatChars (trimChars s.toList)

/-- Truncation toward zero, as Python int() applied to a float. -/
def ratTruncToInt (q : ℚ) : Int := if 0 ≤ q then ⌊q⌋ else ⌈q⌉

/-- Model of Python int(v): None (and other non-numeric, non-string values)
raise TypeError, floats truncate toward zero, strings parse as integers or
raise ValueError.  A raised TypeError/ValueError is Option.none. -/
def pyIntOfVal : PyVal → Option Int
  | PyVal.none => Option.none
  | PyVal.int n => Option.some n
  | PyVal.float q => Option.some (ratTruncToInt q)
  | PyVal.str s => parseIntStr s

/-- Model of Python float(v), with the same error convention as pyIntOfVal. -/
def pyFloatOfVal : PyVal → Option ℚ
  | PyVal.none => Option.none
  | PyVal.int n => Option.some (n : ℚ)
  | PyVal.float q => Option.some q
  | PyVal.str s => parseFloatStr s

/-- Model of Python str(v).  str(None) is "None"; integral floats print with a
trailing ".0" as in Python; the rendering of non-integral floats is not needed
by any claim and is modelled by the rational's own printing. -/
def pyStrOfVal : PyVal → String
  | PyVal.none => "None"
  | PyVal.int n => toString n
  | PyVal.float q => if q.den = 1 then toString q.num ++ ".0" else toString q
  | PyVal.str s => s

/-- ISO date parser for the model: a YYYY-MM-DD digit pattern maps to the
integer y*10000+m*100+d, anything else is unparseable. -/
def parseDateStr (s : String) : Option Int :=
  match splitOnChar '-' s.toList with
  | [y, m, d] =>
    if digitsOnly y && digitsOnly m && digitsOnly d
        && y.length == 4 && m.length == 2 && d.length == 2
        && 1 ≤ digitsVal m && digitsVal m ≤ 12
        && 1 ≤ digitsVal d && digitsVal d ≤ 31 then
      Option.some ((digitsVal y : Int) * 10000 + (digitsVal m : Int) * 100 + (digitsVal d : Int))
    else Option.none
  | _ => Option.none

/-- Model of pandas.to_datetime(v, errors=coerce): returns NaT (Option.none)
instead of raising when v cannot be interpreted as a point in time.  Timestamps
are modelled as integers; string inputs go through the ISO parser above. -/
def toDatetime : PyVal → Option Int
  | PyVal.none => Option.none
  | PyVal.int n => Option.some n
  | PyVal.float q => Option.some ⌊q⌋
  | PyVal.str s => parseDateStr s

/-- First maximal run of decimal digits in a string: the match of the regular
expression search for one-or-more digits at line 48 of the source. -/
def firstDigitRun (s : String) : Option String :=
  let run := (s.toList.dropWhile (fun c => !c.isDigit)).takeWhile (fun c => c.isDigit)
  if run.isEmpty then Option.none else Option.some (String.mk run)

/-- Numeric value of the first digit run of a string, when one exists. -/
def numericOf (s : String) : Option Nat :=
  (firstDigitRun s).map digitsToNat

/-- The fixed category mapping at lines 5-10 of the source. -/
def CATEGORY_MAP : List (Int × String) :=
  [(1, "Electronics"), (2, "Apparel"), (3, "Books"), (4, "Home Goods")]

/-- Python equality of a value against an integer dict key: Python treats
1 == 1.0 as true, so a float with integral value hits an integer key. -/
def pyEqInt (v : PyVal) (n : Int) : Bool :=
  match v with
  | PyVal.int m => decide (m = n)
  | PyVal.float q => decide (q = (n : ℚ))
  | _ => false

/-- CATEGORY_MAP.get(category_code, "Misc") at line 84 of the source: dict
lookup under Python equality with default "Misc". -/
def categoryLookup (v : PyVal) : String :=
  match CATEGORY_MAP.find? (fun kv => pyEqInt v kv.1) with
  | Option.some kv => kv.2
  | Option.none => "Misc"

/-- An item dict.  Each field is absent (Option.none) or holds a value; a
present None key is PyVal.none, which dict.get does not distinguish from an
absent key only when the default is None itself. -/
structure Item where
  item_id : Option PyVal
  product_name : Option PyVal
  category : Option PyVal
  price : Option PyVal
  quantity : Option PyVal
deriving DecidableEq, Repr

/-- An order dict.  The items key, when present, holds a list of item dicts. -/
structure Order where
  order_id : Option PyVal
  order_date : Option PyVal
  items : Option (List Item)
deriving DecidableEq, Repr

/-- A customer dict. -/
structure Customer where
  id : Option PyVal
  name : Option PyVal
  registration_date : Option PyVal
  orders : Option (List Order)
deriving DecidableEq, Repr

/-- float(i.get("price", 0)) with TypeError/ValueError recovered as 0.0
(lines 63-66 of the source). -/
def Item.priceVal (i : Item) : ℚ :=
  (pyFloatOfVal (i.price.getD (PyVal.int 0))).getD 0

/-- int(i.get("quantity", 0)) with TypeError/ValueError recovered as 0
(lines 67-70 of the source). -/
def Item.qtyVal (i : Item) : Int :=
  (pyIntOfVal (i.quantity.getD (PyVal.int 0))).getD 0

/-- price * quantity of one item under the zero-default fallback rule. -/
def Item.pq (i : Item) : ℚ := i.priceVal * (i.qtyVal : ℚ)

/-- total_order at lines 61-71 of the source: the sum of price * quantity over
every item of the raw item list, computed before item validation. -/
def total_order (items : List Item) : ℚ := (items.map Item.pq).sum

/-- int(str(item.get("item_id")).strip()) at lines 74-80: None skips the item,
and a TypeError/ValueError from the conversion also skips it. -/
def Item.pidOf (i : Item) : Option Int :=
  let pid_raw := i.item_id.getD PyVal.none
  if pid_raw = PyVal.none then Option.none
  else parseIntStr (pyStrip (pyStrOfVal pid_raw))

/-- One row appended to the rows list at lines 97-112 of the source, before
the DataFrame stage.  customer_name and product_name are held as the raw
values the dict lookups produced; astype(str) converts them later. -/
structure RawRow where
  customer_id : Int
  customer_name : PyVal
  registration_date : Int
  is_vip : Bool
  order_id : String
  order_id_num : Nat
  order_date : Int
  product_id : Int
  product_name : PyVal
  category : String
  unit_price : ℚ
  item_quantity : Int
  total_item_price : ℚ
  total_order_value_percentage : ℚ
deriving DecidableEq, Repr

/-- Body of the item loop at lines 73-112 of the source: Option.none when the
item is skipped, otherwise the emitted row. -/
def itemRow (cid : Int) (name : PyVal) (reg : Int) (vip : Bool)
    (oid_str : String) (oid_num : Nat) (odate : Int) (tot : ℚ)
    (item : Item) : Option RawRow :=
  match item.pidOf with
  | Option.none => Option.none
  | Option.some pid =>
    let price := item.priceVal
    let qty := item.qtyVal
    let total_price := price * (qty : ℚ)
    Option.some
      { customer_id := cid
        customer_name := name
        registration_date := reg
        is_vip := vip
        order_id := oid_str
        order_id_num := oid_num
        order_date := odate
        product_id := pid
        product_name := item.product_name.getD (PyVal.str "")
        category := categoryLookup (item.category.getD PyVal.none)
        unit_price := price
        item_quantity := qty
        total_item_price := total_price
        total_order_value_percentage := if tot = 0 then 0 else total_price / tot * 100 }

/-- Body of the order loop at lines 42-112 of the source: the rows one order
contributes.  A missing order_id, a digit-free order_id string, or an
unparseable order date skips the order. -/
def orderRows (cid : Int) (name : PyVal) (reg : Int) (vip : Bool)
    (order : Order) : List RawRow :=
  let oid_raw := order.order_id.getD PyVal.none
  if oid_raw = PyVal.none then []
  else
    let oid_str := pyStrOfVal oid_raw
    match firstDigitRun oid_str with
    | Option.none => []
    | Option.some run =>
      match toDatetime (order.order_date.getD PyVal.none) with
      | Option.none => []
      | Option.some odate =>
        let items := order.items.getD []
        items.filterMap (itemRow cid name reg vip oid_str (digitsToNat run) odate (total_order items))

/-- Body of the customer loop at lines 28-112 of the source.  A missing id or
an unparseable registration date skips the customer; a present id that int()
cannot coerce raises ValueError/TypeError, which nothing catches — the loop is
inside no try block, so the exception propagates out of flatten_data. -/
def customerRows (vips : List Int) (c : Customer) : Except String (List RawRow) :=
  let cid_raw := c.id.getD PyVal.none
  if cid_raw = PyVal.none then Except.ok []
  else
    match pyIntOfVal cid_raw with
    | Option.none => Except.error "ValueError"
    | Option.some cid =>
      let name := c.name.getD (PyVal.str "")
      match toDatetime (c.registration_date.getD PyVal.none) with
      | Option.none => Except.ok []
      | Option.some reg =>
        Except.ok (((c.orders.getD []).map (orderRows cid name reg (vips.contains cid))).flatten)

/-- The full customer loop: the rows list as it stands at line 114, or the
first uncaught exception. -/
def flattenRows (raw : List Customer) (vips : List Int) : Except String (List RawRow) :=
  match raw with
  | [] => Except.ok []
  | c :: rest =>
    match customerRows vips c with
    | Except.error e => Except.error e
    | Except.ok r =>
      match flattenRows rest vips with
      | Except.error e => Except.error e
      | Except.ok rs => Except.ok (r ++ rs)

/-- One row of the returned DataFrame: the 13-column schema after the helper
column order_id_num is dropped at line 120 and astype is applied. -/
structure FinalRow where
  customer_id : Int
  customer_name : String
  registration_date : Int
  is_vip : Bool
  order_id : String
  order_date : Int
  product_id : Int
  product_name : String
  category : String
  unit_price : ℚ
  item_quantity : Int
  total_item_price : ℚ
  total_order_value_percentage : ℚ
deriving DecidableEq, Repr

/-- drop(columns=[order_id_num]) plus the astype cast at lines 120-137: the
name columns go through str(), every other column already holds a value of its
declared type, so the cast leaves it unchanged. -/
def castRow (r : RawRow) : FinalRow :=
  { customer_id := r.customer_id
    customer_name := pyStrOfVal r.customer_name
    registration_date := r.registration_date
    is_vip := r.is_vip
    order_id := r.order_id
    order_date := r.order_date
    product_id := r.product_id
    product_name := pyStrOfVal r.product_name
    category := r.category
    unit_price := r.unit_price
    item_quantity := r.item_quantity
    total_item_price := r.total_item_price
    total_order_value_percentage := r.total_order_value_percentage }

/-- Lexicographic comparison of sort keys (customer_id, order_id_num, product_id). -/
def keyLe (a b : Int × Nat × Int) : Prop :=
  a.1 < b.1 ∨ (a.1 = b.1 ∧ (a.2.1 < b.2.1 ∨ (a.2.1 = b.2.1 ∧ a.2.2 ≤ b.2.2)))

instance keyLe.dec (a b : Int × Nat × Int) : Decidable (keyLe a b) := by
  unfold keyLe; exact inferInstance

/-- The sort key the source passes to sort_values at line 117. -/
def rowKey (r : RawRow) : Int × Nat × Int := (r.customer_id, r.order_id_num, r.product_id)

/-- Row comparison used to model sort_values(by=[customer_id, order_id_num,
product_id], ascending=True). -/
def rowLe (a b : RawRow) : Prop := keyLe (rowKey a) (rowKey b)

instance rowLe.dec : DecidableRel rowLe := fun a b => keyLe.dec (rowKey a) (rowKey b)

theorem keyLe_total (a b : Int × Nat × Int) : keyLe a b ∨ keyLe b a := by
  unfold keyLe; omega

theorem keyLe_trans (a b c : Int × Nat × Int) (h1 : keyLe a b) (h2 : keyLe b c) : keyLe a c := by
  unfold keyLe at h1 h2 ⊢; omega

instance : IsTotal RawRow rowLe := ⟨fun a b => keyLe_total (rowKey a) (rowKey b)⟩

instance : IsTrans RawRow rowLe := ⟨fun a b c => keyLe_trans (rowKey a) (rowKey b) (rowKey c)⟩

/-- flatten_data at lines 26-139 of the source: the customer loop builds the
rows list, then pd.DataFrame(rows) is sorted, the helper column dropped, and
the columns cast.  pandas makes DataFrame columns from the dict keys of the
rows; DataFrame([]) therefore has no columns at all, and sort_values(by=...)
on it raises KeyError because the by columns do not exist — so an empty rows
list aborts instead of returning an empty table.  sort_values is modelled by
insertion sort under the lexicographic key order, which realizes its
postcondition (ascending by the three key columns). -/
def flatten_data (raw : List Customer) (vips : List Int) : Except String (List FinalRow) :=
  match flattenRows raw vips with
  | Except.error e => Except.error e
  | Except.ok rows =>
    if rows.isEmpty then Except.error "KeyError"
    else Except.ok ((List.insertionSort rowLe rows).map castRow)

/-- Spec section 8 end-to-end scenario: two well-formed items. -/
def it10 : Item :=
  { item_id := Option.some (PyVal.int 10)
    product_name := Option.some (PyVal.str "Widget")
    category := Option.some (PyVal.int 1)
    price := Option.some (PyVal.int 5)
    quantity := Option.some (PyVal.int 2) }

def it11 : Item :=
  { item_id := Option.some (PyVal.int 11)
    product_name := Option.some (PyVal.str "Shirt")
    category := Option.some (PyVal.int 2)
    price := Option.some (PyVal.int 5)
    quantity := Option.some (PyVal.int 2) }

def ord1 : Order :=
  { order_id := Option.some (PyVal.str "ORD-7")
    order_date := Option.some (PyVal.str "2020-02-01")
    items := Option.some [it10, it11] }

def cust1 : Customer :=
  { id := Option.some (PyVal.int 1)
    name := Option.some (PyVal.str "A")
    registration_date := Option.some (PyVal.str "2020-01-01")
    orders := Option.some [ord1] }

/-- A well-formed item with price 5, quantity 1. -/
def itOk1 : Item :=
  { item_id := Option.some (PyVal.int 1)
    product_name := Option.none
    category := Option.none
    price := Option.some (PyVal.int 5)
    quantity := Option.some (PyVal.int 1) }

/-- An item whose item_id is not integer-coercible; its price and quantity are
well-formed and nonzero. -/
def itBad : Item :=
  { item_id := Option.some (PyVal.str "x")
    product_name := Option.none
    category := Option.none
    price := Option.some (PyVal.int 5)
    quantity := Option.some (PyVal.int 1) }

/-- An item whose price * quantity is -5, cancelling itOk1. -/
def itNeg : Item :=
  { item_id := Option.some (PyVal.int 2)
    product_name := Option.none
    category := Option.none
    price := Option.some (PyVal.int (-5))
    quantity := Option.some (PyVal.int 1) }

def ordB : Order :=
  { order_id := Option.some (PyVal.str "A1")
    order_date := Option.some (PyVal.str "2020-01-02")
    items := Option.some [itOk1, itBad] }

def custB : Customer :=
  { id := Option.some (PyVal.int 1)
    name := Option.none
    registration_date := Option.some (PyVal.str "2020-01-01")
    orders := Option.some [ordB] }

def ordC : Order :=
  { order_id := Option.some (PyVal.str "A1")
    order_date := Option.some (PyVal.str "2020-01-02")
    items := Option.some [itOk1, itNeg] }

def custC : Customer :=
  { id := Option.some (PyVal.int 1)
    name := Option.none
    registration_date := Option.some (PyVal.str "2020-01-01")
    orders := Option.some [ordC] }

/-- A customer whose id key is absent/None but whose orders are well-formed. -/
def custNoId : Customer :=
  { id := Option.none
    name := Option.some (PyVal.str "B")
    registration_date := Option.some (PyVal.str "2020-01-01")
    orders := Option.some [ord1] }

/-- A customer whose id is present but not integer-coercible. -/
def custBadId : Customer :=
  { id := Option.some (PyVal.str "abc")
    name := Option.some (PyVal.str "C")
    registration_date := Option.some (PyVal.str "2020-01-01")
    orders := Option.some [ord1] }

/-- An item with non-numeric price and valid quantity 3. -/
def it8 : Item :=
  { item_id := Option.some (PyVal.int 7)
    product_name := Option.none
    category := Option.none
    price := Option.some (PyVal.str "abc")
    quantity := Option.some (PyVal.int 3) }

/-- Field values of a row the item loop emits: the row carries the order
context it was built in, total_item_price is the product of its own unit_price
and item_quantity, and the percentage is that product against the order total
passed in (0 when that total is 0). -/
theorem itemRow_eq_some {cid : Int} {name : PyVal} {reg : Int} {vip : Bool}
    {oid_str : String} {oid_num : Nat} {odate : Int} {tot : ℚ} {item : Item} {r : RawRow}
    (h : itemRow cid name reg vip oid_str oid_num odate tot item = Option.some r) :
    r.customer_id = cid ∧ r.order_id = oid_str ∧ r.order_id_num = oid_num ∧
    r.unit_price = item.priceVal ∧ r.item_quantity = item.qtyVal ∧
    r.total_item_price = r.unit_price * (r.item_quantity : ℚ) ∧
    r.total_order_value_percentage =
      (if tot = 0 then 0 else r.total_item_price / tot * 100) := by
  unfold itemRow at h
  cases hp : item.pidOf with
  | none => rw [hp] at h; exact absurd h (by simp)
  | some pid =>
    rw [hp] at h
    simp only [Option.some.injEq] at h
    subst h
    exact ⟨rfl, rfl, rfl, rfl, rfl, rfl, rfl⟩

/-- Every row an order contributes carries the customer id it was emitted
under, an order_id string whose first digit run is the dropped sort key, an
exact total_item_price product, and a percentage computed against the total of
the order's full raw item list. -/
theorem mem_orderRows {cid : Int} {name : PyVal} {reg : Int} {vip : Bool}
    {order : Order} {r : RawRow} (h : r ∈ orderRows cid name reg vip order) :
    r.customer_id = cid ∧
    numericOf r.order_id = Option.some r.order_id_num ∧
    r.total_item_price = r.unit_price * (r.item_quantity : ℚ) ∧
    r.total_order_value_percentage =
      (if total_order (order.items.getD []) = 0 then 0
       else r.total_item_price / total_order (order.items.getD []) * 100) := by
  unfold orderRows at h
  by_cases h0 : order.order_id.getD PyVal.none = PyVal.none
  · rw [if_pos h0] at h; exact absurd h (by simp)
  · rw [if_neg h0] at h
    cases h1 : firstDigitRun (pyStrOfVal (order.order_id.getD PyVal.none)) with
    | none => simp only [h1] at h; exact absurd h (by simp)
    | some run =>
      simp only [h1] at h
      cases h2 : toDatetime (order.order_date.getD PyVal.none) with
      | none => simp only [h2] at h; exact absurd h (by simp)
      | some odate =>
        simp only [h2] at h
        obtain ⟨i, hi, hr⟩ := List.mem_filterMap.mp h
        obtain ⟨hc, ho, hn, _, _, ht, hp⟩ := itemRow_eq_some hr
        refine ⟨hc, ?_, ht, hp⟩
        rw [ho, hn, numericOf, h1]
        rfl

/-- Every row a customer contributes comes from one of its orders. -/
theorem mem_customerRows {vips : List Int} {c : Customer} {crows : List RawRow} {r : RawRow}
    (h : customerRows vips c = Except.ok crows) (hr : r ∈ crows) :
    ∃ cid name reg vip order, r ∈ orderRows cid name reg vip order := by
  unfold customerRows at h
  by_cases h0 : c.id.getD PyVal.none = PyVal.none
  · rw [if_pos h0] at h
    simp only [Except.ok.injEq] at h
    subst h
    exact absurd hr (by simp)
  · rw [if_neg h0] at h
    cases h1 : pyIntOfVal (c.id.getD PyVal.none) with
    | none => simp only [h1] at h; exact absurd h (by simp)
    | some cid =>
      simp only [h1] at h
      cases h2 : toDatetime (c.registration_date.getD PyVal.none) with
      | none =>
        simp only [h2, Except.ok.injEq] at h
        subst h
        exact absurd hr (by simp)
      | some reg =>
        simp only [h2, Except.ok.injEq] at h
        subst h
        obtain ⟨l, hl, hrl⟩ := List.mem_flatten.mp hr
        obtain ⟨order, _, rfl⟩ := List.mem_map.mp hl
        exact ⟨cid, c.name.getD (PyVal.str ""), reg, vips.contains cid, order, hrl⟩

/-- Every row of the pre-DataFrame rows list comes from some order of some
customer of the input. -/
theorem mem_flattenRows {raw : List Customer} {vips : List Int} {rows : List RawRow} {r : RawRow}
    (h : flattenRows raw vips = Except.ok rows) (hr : r ∈ rows) :
    ∃ cid name reg vip order, r ∈ orderRows cid name reg vip order := by
  induction raw generalizing rows with
  | nil =>
    unfold flattenRows at h
    simp only [Except.ok.injEq] at h
    subst h
    exact absurd hr (by simp)
  | cons c rest ih =>
    unfold flattenRows at h
    cases hc : customerRows vips c with
    | error e => rw [hc] at h; exact absurd h (by simp)
    | ok cr =>
      rw [hc] at h
      cases hrest : flattenRows rest vips with
      | error e => rw [hrest] at h; exact absurd h (by simp)
      | ok rs =>
        rw [hrest] at h
        simp only [Except.ok.injEq] at h
        subst h
        rcases List.mem_append.mp hr with hmem | hmem
        · exact mem_customerRows hc hmem
        · exact ih hrest hmem

/-- Properties every row of the pre-DataFrame rows list satisfies. -/
theorem flattenRows_row_prop {raw : List Customer} {vips : List Int} {rows : List RawRow}
    {r : RawRow} (h : flattenRows raw vips = Except.ok rows) (hr : r ∈ rows) :
    numericOf r.order_id = Option.some r.order_id_num ∧
    r.total_item_price = r.unit_price * (r.item_quantity : ℚ) := by
  obtain ⟨cid, name, reg, vip, order, hmem⟩ := mem_flattenRows h hr
  obtain ⟨_, hn, ht, _⟩ := mem_orderRows hmem
  exact ⟨hn, ht⟩

/-- When every item of a list passes item-id validation, the item loop emits
one row per item, and against a nonzero total the emitted percentages sum to
the items' aggregate share of that total. -/
theorem sum_percentages_aux (cid : Int) (name : PyVal) (reg : Int) (vip : Bool)
    (oid_str : String) (oid_num : Nat) (odate : Int) (tot : ℚ)
    (items : List Item) (hvalid : ∀ i ∈ items, (Item.pidOf i).isSome = true)
    (ht : tot ≠ 0) :
    ((items.filterMap (itemRow cid name reg vip oid_str oid_num odate tot)).map
      (fun r => r.total_order_value_percentage)).sum
      = (items.map Item.pq).sum / tot * 100 := by
  induction items with
  | nil => simp
  | cons i is ih =>
    have hv : (Item.pidOf i).isSome = true := hvalid i (by simp)
    cases hp : i.pidOf with
    | none => rw [hp] at hv; exact absurd hv (by simp)
    | some pid =>
      rw [List.filterMap_cons]
      simp only [itemRow, hp]
      rw [List.map_cons, List.sum_cons,
        ih (fun j hj => hvalid j (List.mem_cons_of_mem i hj)),
        List.map_cons, List.sum_cons, if_neg ht]
      show i.priceVal * (i.qtyVal : ℚ) / tot * 100 + _ = _
      rw [Item.pq]
      field_simp
      ring

/-- The validation report the validator prints, one field per metric that
depends on the table's data.  The two leading sections (missing values per
column and per-column dtype) read the table without touching its values
and are constant in the typed model, so they carry no report field. -/
structure Report where
  neg_price : Nat
  neg_total_price : Nat
  neg_qty : Nat
  bad_dates : Nat
  zero_qty : Nat
  dup : Nat
  inconsistent : Nat
deriving DecidableEq, Repr

/-- df.duplicated().sum() at line 168: the number of rows equal to an
earlier row, which is the number of rows beyond one per distinct row. -/
def dupCount (l : List FinalRow) : Nat := l.length - l.dedup.length

/-- The distinct (customer_id, order_id) groups of the table, as groupby
forms them at lines 172-173. -/
def groupKeys (df : List FinalRow) : List (Int × String) :=
  (df.map (fun r => (r.customer_id, r.order_id))).dedup

/-- Sum of total_order_value_percentage over one (customer_id, order_id)
group. -/
def groupPercentSum (df : List FinalRow) (k : Int × String) : ℚ :=
  ((df.filter (fun r => decide ((r.customer_id, r.order_id) = k))).map
    (fun r => r.total_order_value_percentage)).sum

/-- validate_data at lines 141-177 of the source.  Every pandas operation it
performs — isnull, dtypes, boolean-mask selection, groupby aggregation,
duplicated — returns a fresh object and leaves df itself untouched; nothing is
assigned back to df and no inplace keyword is used.  The model therefore
returns the table it was given alongside the computed report; its totality
models that none of these reads raises on a table of the declared schema. -/
def validate_data (df : List FinalRow) : List FinalRow × Report :=
  let neg_price := (df.filter (fun r => decide (r.unit_price < 0))).length
  let neg_total_price := (df.filter (fun r => decide (r.total_item_price < 0))).length
  let neg_qty := (df.filter (fun r => decide (r.item_quantity < 0))).length
  let bad_dates := (df.filter (fun r => decide (r.order_date < r.registration_date))).length
  let zero_qty := (df.filter (fun r => decide (r.item_quantity ≤ 0))).length
  let dup := dupCount df
  let inconsistent :=
    ((groupKeys df).filter (fun k =>
      decide (groupPercentSum df k < 999 / 10) || decide (groupPercentSum df k > 1001 / 10))).length
  (df, { neg_price := neg_price
         neg_total_price := neg_total_price
         neg_qty := neg_qty
         bad_dates := bad_dates
         zero_qty := zero_qty
         dup := dup
         inconsistent := inconsistent })

/-- A successful flatten_data run is the sorted, cast image of a successful
customer-loop run. -/
theorem flatten_data_ok {raw : List Customer} {vips : List Int} {rows : List FinalRow}
    (h : flatten_data raw vips = Except.ok rows) :
    ∃ rrows, flattenRows raw vips = Except.ok rrows
      ∧ rows = (List.insertionSort rowLe rrows).map castRow := by
  unfold flatten_data at h
  cases hf : flattenRows raw vips with
  | error e => rw [hf] at h; exact absurd h (by simp)
  | ok rrows =>
    rw [hf] at h
    have h2 : (if rrows.isEmpty = true then (Except.error "KeyError" : Except String (List FinalRow))
        else Except.ok ((List.insertionSort rowLe rrows).map castRow)) = Except.ok rows := h
    by_cases he : rrows.isEmpty = true
    · rw [if_pos he] at h2; exact absurd h2 (by simp)
    · rw [if_neg he] at h2
      simp only [Except.ok.injEq] at h2
      exact ⟨rrows, rfl, h2.symm⟩

/-- The ordering key recomputable from an output row: customer_id, the numeric
value of the first digit run of order_id, product_id. -/
def finalKey (r : FinalRow) : Int × Nat × Int :=
  (r.customer_id, (numericOf r.order_id).getD 0, r.product_id)

/-- Claim C5: for every emitted output row, total_item_price equals the
product of the row's own unit_price and item_quantity values, exactly. -/
theorem c5_total_item_price {raw : List Customer} {vips : List Int} {rows : List FinalRow}
    {r : FinalRow} (h : flatten_data raw vips = Except.ok rows) (hr : r ∈ rows) :
    r.total_item_price = r.unit_price * (r.item_quantity : ℚ) := by
  obtain ⟨rrows, hf, rfl⟩ := flatten_data_ok h
  obtain ⟨rr, hrr, rfl⟩ := List.mem_map.mp hr
  have hmem : rr ∈ rrows := (List.mem_insertionSort rowLe).mp hrr
  simpa [castRow] using (flattenRows_row_prop hf hmem).2

/-- Claim C4: the output table is sorted ascending by the lexicographic key
(customer_id, numeric value of the first digit run of order_id, product_id);
the numeric key column itself is dropped before output, so the key is stated
here purely in terms of the 13 output columns. -/
theorem c4_output_sorted {raw : List Customer} {vips : List Int} {rows : List FinalRow}
    (h : flatten_data raw vips = Except.ok rows) :
    List.Pairwise (fun a b => keyLe (finalKey a) (finalKey b)) rows := by
  obtain ⟨rrows, hf, rfl⟩ := flatten_data_ok h
  have hsorted : List.Sorted rowLe (List.insertionSort rowLe rrows) :=
    List.sorted_insertionSort rowLe rrows
  rw [List.pairwise_map]
  refine hsorted.imp_of_mem ?_
  intro a b ha hb hab
  have hA := (flattenRows_row_prop hf ((List.mem_insertionSort rowLe).mp ha)).1
  have hB := (flattenRows_row_prop hf ((List.mem_insertionSort rowLe).mp hb)).1
  have ea : finalKey (castRow a) = rowKey a := by simp [finalKey, castRow, rowKey, hA]
  have eb : finalKey (castRow b) = rowKey b := by simp [finalKey, castRow, rowKey, hB]
  rw [ea, eb]
  exact hab

/-- Claim C3: every row an order emits carries a percentage whose denominator
is total_order of the order's full raw item list (zero guarded), and that
total is insensitive to the item_id fields — so it is the same sum whether or
not items later fail item-level identifier validation. -/
theorem c3_order_total_denominator {cid : Int} {name : PyVal} {reg : Int} {vip : Bool}
    {order : Order} {r : RawRow} (h : r ∈ orderRows cid name reg vip order) :
    (r.total_order_value_percentage =
      if total_order (order.items.getD []) = 0 then 0
      else r.total_item_price / total_order (order.items.getD []) * 100)
    ∧ ∀ (items : List Item) (v : Option PyVal),
        total_order (items.map (fun it => { it with item_id := v })) = total_order items := by
  refine ⟨(mem_orderRows h).2.2.2, ?_⟩
  intro items v
  unfold total_order
  rw [List.map_map]
  rfl

/-- Claim C7: the category resolver is total with the fixed mapping; a code
equal (under Python numeric equality) to 1, 2, 3 or 4 resolves to its label,
and every other code — None included — resolves to "Misc". -/
theorem c7_category_resolver :
    (∀ v : PyVal, pyEqInt v 1 = true → categoryLookup v = "Electronics")
    ∧ (∀ v : PyVal, pyEqInt v 2 = true → categoryLookup v = "Apparel")
    ∧ (∀ v : PyVal, pyEqInt v 3 = true → categoryLookup v = "Books")
    ∧ (∀ v : PyVal, pyEqInt v 4 = true → categoryLookup v = "Home Goods")
    ∧ (∀ v : PyVal, pyEqInt v 1 = false → pyEqInt v 2 = false → pyEqInt v 3 = false →
        pyEqInt v 4 = false → categoryLookup v = "Misc")
    ∧ categoryLookup PyVal.none = "Misc" := by
  refine ⟨?_, ?_, ?_, ?_, ?_, rfl⟩
  all_goals intro v h
  case _ => exact match v, h with
    | PyVal.int m, h => by
      have : m = 1 := by simpa [pyEqInt] using h
      subst this; rfl
    | PyVal.float q, h => by
      have : q = 1 := by simpa [pyEqInt] using h
      subst this; decide
  case _ => exact match v, h with
    | PyVal.int m, h => by
      have : m = 2 := by simpa [pyEqInt] using h
      subst this; rfl
    | PyVal.float q, h => by
      have : q = 2 := by simpa [pyEqInt] using h
      subst this; decide
  case _ => exact match v, h with
    | PyVal.int m, h => by
      have : m = 3 := by simpa [pyEqInt] using h
      subst this; rfl
    | PyVal.float q, h => by
      have : q = 3 := by simpa [pyEqInt] using h
      subst this; decide
  case _ => exact match v, h with
    | PyVal.int m, h => by
      have : m = 4 := by simpa [pyEqInt] using h
      subst this; rfl
    | PyVal.float q, h => by
      have : q = 4 := by simpa [pyEqInt] using h
      subst this; decide
  case _ =>
    intro h2 h3 h4
    simp [categoryLookup, CATEGORY_MAP, List.find?, h, h2, h3, h4]

/-- Claim C7 witness: category code 2 resolves to Apparel, code 99 to Misc. -/
theorem c7_witness :
    categoryLookup (PyVal.int 2) = "Apparel" ∧ categoryLookup (PyVal.int 99) = "Misc" :=
  ⟨c7_category_resolver.2.1 (PyVal.int 2) (by decide),
   c7_category_resolver.2.2.2.2.1 (PyVal.int 99) (by decide) (by decide) (by decide) (by decide)⟩

/-- Claim C9: the validator returns the table it was given unchanged — its
only product beyond the table is the report. -/
theorem c9_validator_frame (df : List FinalRow) : (validate_data df).1 = df := rfl

/-- Claim C10: two runs of the pipeline on identical input (same customer
sequence, same VIP set) produce identical results. -/
theorem c10_two_run_determinism (raw : List Customer) (vips : List Int)
    (out1 out2 : Except String (List FinalRow))
    (h1 : flatten_data raw vips = out1) (h2 : flatten_data raw vips = out2) :
    out1 = out2 := h1 ▸ h2 ▸ rfl

/-- A customer with a missing (None) id contributes Except.ok [] at line 31. -/
theorem customerRows_none_id {vips : List Int} {c : Customer}
    (hid : c.id.getD PyVal.none = PyVal.none) : customerRows vips c = Except.ok [] := by
  unfold customerRows
  rw [if_pos hid]

/-- The only exception the customer loop raises is the uncaught ValueError
from int(cid_raw) at line 32. -/
theorem customerRows_error_eq {vips : List Int} {c : Customer} {e : String}
    (h : customerRows vips c = Except.error e) : e = "ValueError" := by
  unfold customerRows at h
  by_cases h0 : c.id.getD PyVal.none = PyVal.none
  · rw [if_pos h0] at h; exact absurd h (by simp)
  · rw [if_neg h0] at h
    cases h1 : pyIntOfVal (c.id.getD PyVal.none) with
    | none =>
      simp only [h1, Except.error.injEq] at h
      exact h.symm
    | some cid =>
      simp only [h1] at h
      cases h2 : toDatetime (c.registration_date.getD PyVal.none) with
      | none => simp only [h2] at h; exact absurd h (by simp)
      | some reg => simp only [h2] at h; exact absurd h (by simp)

/-- Deleting a customer whose id is missing from anywhere in the input leaves
the customer loop's outcome unchanged. -/
theorem flattenRows_skip_none_id {vips : List Int} {c : Customer}
    (hid : c.id.getD PyVal.none = PyVal.none) (pre post : List Customer) :
    flattenRows (pre ++ c :: post) vips = flattenRows (pre ++ post) vips := by
  induction pre with
  | nil =>
    simp only [List.nil_append]
    rw [flattenRows, customerRows_none_id hid]
    cases hrest : flattenRows post vips with
    | error e => rfl
    | ok rs => simp
  | cons p ps ih =>
    simp only [List.cons_append]
    rw [flattenRows, flattenRows, ih]

/-- A customer whose id is present but rejected by int() turns the whole loop
into the uncaught ValueError, whatever precedes or follows it. -/
theorem flattenRows_raise {vips : List Int} {c : Customer}
    (hid : c.id.getD PyVal.none ≠ PyVal.none)
    (hco : pyIntOfVal (c.id.getD PyVal.none) = Option.none) (pre post : List Customer) :
    flattenRows (pre ++ c :: post) vips = Except.error "ValueError" := by
  induction pre with
  | nil =>
    simp only [List.nil_append]
    have hc : customerRows vips c = Except.error "ValueError" := by
      unfold customerRows
      rw [if_neg hid]
      simp only [hco]
    rw [flattenRows, hc]
  | cons p ps ih =>
    simp only [List.cons_append]
    rw [flattenRows]
    cases hp : customerRows vips p with
    | error e => rw [customerRows_error_eq hp]
    | ok r => rw [ih]


/-- Claim C1 counterexample: a customer whose id is present but not
integer-coercible does not get skipped — flatten_data raises the uncaught
ValueError from int() and the well-formed customer after it is never
processed, so the claim as stated is false. -/
theorem c1_counterexample :
    flatten_data [custBadId, cust1] [] = Except.error "ValueError" := by
  with_unfolding_all rfl

/-- Claim C1 (amended): a customer with a missing id is skipped silently —
the run's outcome is the one for the input without that customer, so it
produces zero rows and processing continues with the remaining customers.  A
customer whose id is present but not integer-coercible instead aborts the
whole run with ValueError. -/
theorem c1_skip_and_raise :
    (∀ (pre post : List Customer) (c : Customer) (vips : List Int),
      c.id.getD PyVal.none = PyVal.none →
      flatten_data (pre ++ c :: post) vips = flatten_data (pre ++ post) vips)
    ∧ (∀ (pre post : List Customer) (c : Customer) (vips : List Int) (v : PyVal),
      c.id.getD PyVal.none = v → v ≠ PyVal.none → pyIntOfVal v = Option.none →
      flatten_data (pre ++ c :: post) vips = Except.error "ValueError") := by
  constructor
  · intro pre post c vips hid
    unfold flatten_data
    rw [flattenRows_skip_none_id hid pre post]
  · intro pre post c vips v hv hne hco
    subst hv
    unfold flatten_data
    rw [flattenRows_raise hne hco pre post]

/-- Claim C1 witness: a missing-id customer in front of a well-formed one is
silently dropped, and a lone non-coercible id raises. -/
theorem c1_witness :
    flatten_data [custNoId, cust1] [] = flatten_data [cust1] []
    ∧ flatten_data [custBadId] [] = Except.error "ValueError" :=
  ⟨c1_skip_and_raise.1 [] [cust1] custNoId [] rfl,
   c1_skip_and_raise.2 [] [] custBadId [] (PyVal.str "abc") rfl (by decide) (by decide)⟩

/-- The single output row of flatten_data on [custB]: the valid item's 5 is
half of the order total 10, because the skipped item's 5 also entered the
total. -/
def rowB : FinalRow :=
  { customer_id := 1, customer_name := "", registration_date := 20200101, is_vip := false
    order_id := "A1", order_date := 20200102, product_id := 1, product_name := ""
    category := "Misc", unit_price := 5, item_quantity := 1, total_item_price := 5
    total_order_value_percentage := 50 }

/-- First output row of flatten_data on [custC]. -/
def rowC1 : FinalRow :=
  { customer_id := 1, customer_name := "", registration_date := 20200101, is_vip := false
    order_id := "A1", order_date := 20200102, product_id := 1, product_name := ""
    category := "Misc", unit_price := 5, item_quantity := 1, total_item_price := 5
    total_order_value_percentage := 0 }

/-- Second output row of flatten_data on [custC]. -/
def rowC2 : FinalRow :=
  { customer_id := 1, customer_name := "", registration_date := 20200101, is_vip := false
    order_id := "A1", order_date := 20200102, product_id := 2, product_name := ""
    category := "Misc", unit_price := -5, item_quantity := 1, total_item_price := -5
    total_order_value_percentage := 0 }

/-- Claim C2 counterexample.  First input: the (1, "A1") group of the emitted
rows has order total 10 > 0 but its percentages sum to 50, because the second
item's 5 entered the denominator and then failed item-id validation.  Second
input: the percentages sum to 0 although no item has price * quantity equal
to 0 — the item totals 5 and -5 cancel. -/
theorem c2_counterexample :
    (flatten_data [custB] [] = Except.ok [rowB]
      ∧ 0 < total_order (ordB.items.getD [])
      ∧ groupPercentSum [rowB] (1, "A1") = 50)
    ∧ (flatten_data [custC] [] = Except.ok [rowC1, rowC2]
      ∧ Item.pq itOk1 = 5 ∧ Item.pq itNeg = -5
      ∧ groupPercentSum [rowC1, rowC2] (1, "A1") = 0) :=
  ⟨⟨by with_unfolding_all rfl, by with_unfolding_all decide, by with_unfolding_all decide⟩,
   ⟨by with_unfolding_all rfl, by with_unfolding_all decide, by with_unfolding_all decide,
    by with_unfolding_all decide⟩⟩

/-- Claim C2 (amended): for a surviving order all of whose items pass
item-level identifier validation, the emitted percentages sum to exactly 100
whenever the order total is nonzero, and every emitted percentage is 0
whenever the order total is 0. -/
theorem c2_percentage_sum (cid : Int) (name : PyVal) (reg : Int) (vip : Bool)
    (order : Order) (v : PyVal) (run : String) (d : Int)
    (h1 : order.order_id.getD PyVal.none = v) (h2 : v ≠ PyVal.none)
    (h3 : firstDigitRun (pyStrOfVal v) = Option.some run)
    (h4 : toDatetime (order.order_date.getD PyVal.none) = Option.some d)
    (hvalid : ∀ i ∈ order.items.getD [], (Item.pidOf i).isSome = true) :
    (total_order (order.items.getD []) ≠ 0 →
      ((orderRows cid name reg vip order).map
        (fun r => r.total_order_value_percentage)).sum = 100)
    ∧ (total_order (order.items.getD []) = 0 →
      ∀ r ∈ orderRows cid name reg vip order, r.total_order_value_percentage = 0) := by
  constructor
  · intro ht
    unfold orderRows
    rw [h1, if_neg h2]
    simp only [h3, h4]
    rw [sum_percentages_aux cid name reg vip (pyStrOfVal v) (digitsToNat run) d
      (total_order (order.items.getD [])) (order.items.getD []) hvalid ht]
    have ht2 : ((order.items.getD []).map Item.pq).sum ≠ 0 := ht
    unfold total_order
    rw [div_self ht2, one_mul]
  · intro ht r hr
    have hp := (mem_orderRows hr).2.2.2
    rw [if_pos ht] at hp
    exact hp

/-- Claim C2 witness: the section-8 scenario order has total 20 and all items
valid; its emitted percentages sum to 100. -/
theorem c2_witness :
    ((orderRows 1 (PyVal.str "A") 20200101 true ord1).map
      (fun r => r.total_order_value_percentage)).sum = 100 :=
  (c2_percentage_sum 1 (PyVal.str "A") 20200101 true ord1 (PyVal.str "ORD-7") "7" 20200201
    rfl (by decide) (by decide) (by decide) (by decide)).1 (by with_unfolding_all decide)

/-- Claim C6: on an empty customer sequence no row survives; the DataFrame
built from an empty rows list has no columns, so sort_values raises KeyError
and the run aborts instead of yielding an empty 13-column table. -/
theorem c6_empty_input_aborts (vips : List Int) :
    flatten_data [] vips = Except.error "KeyError" := rfl

/-- Claim C8: within a surviving order, an item with a valid identifier whose
price is not numerically coercible and whose quantity coerces to q is still
emitted, with unit_price 0, item_quantity q, total_item_price 0, and a zero
contribution to the order total. -/
theorem c8_value_coercion_defaults (cid : Int) (name : PyVal) (reg : Int) (vip : Bool)
    (oid_str : String) (oid_num : Nat) (odate : Int) (tot : ℚ) (i : Item) (q : Int)
    (hpid : (Item.pidOf i).isSome = true)
    (hprice : pyFloatOfVal (i.price.getD (PyVal.int 0)) = Option.none)
    (hqty : pyIntOfVal (i.quantity.getD (PyVal.int 0)) = Option.some q) :
    ∃ r, itemRow cid name reg vip oid_str oid_num odate tot i = Option.some r
      ∧ r.unit_price = 0 ∧ r.item_quantity = q ∧ r.total_item_price = 0
      ∧ Item.pq i = 0 := by
  cases hp : i.pidOf with
  | none => rw [hp] at hpid; exact absurd hpid (by simp)
  | some pid =>
    have hpr : i.priceVal = 0 := by rw [Item.priceVal, hprice]; rfl
    have hq : i.qtyVal = q := by rw [Item.qtyVal, hqty]; rfl
    refine ⟨_, by unfold itemRow; rw [hp], hpr, hq, ?_, ?_⟩
    · show i.priceVal * (i.qtyVal : ℚ) = 0
      rw [hpr, zero_mul]
    · rw [Item.pq, hpr, zero_mul]

/-- Claim C8 witness: an item with price "abc" and quantity 3 is emitted with
unit_price 0, item_quantity 3, total_item_price 0, contributing 0 to the
order total. -/
theorem c8_witness :
    ∃ r, itemRow 1 (PyVal.str "") 20200101 false "A1" 1 20200102 10 it8 = Option.some r
      ∧ r.unit_price = 0 ∧ r.item_quantity = 3 ∧ r.total_item_price = 0
      ∧ Item.pq it8 = 0 :=
  c8_value_coercion_defaults 1 (PyVal.str "") 20200101 false "A1" 1 20200102 10 it8 3
    (by decide) (by decide) (by decide)

/-- First output row of the section-8 scenario run. -/
def out1a : FinalRow :=
  { customer_id := 1, customer_name := "A", registration_date := 20200101, is_vip := true
    order_id := "ORD-7", order_date := 20200201, product_id := 10, product_name := "Widget"
    category := "Electronics", unit_price := 5, item_quantity := 2, total_item_price := 10
    total_order_value_percentage := 50 }

/-- Second output row of the section-8 scenario run. -/
def out1b : FinalRow :=
  { customer_id := 1, customer_name := "A", registration_date := 20200101, is_vip := true
    order_id := "ORD-7", order_date := 20200201, product_id := 11, product_name := "Shirt"
    category := "Apparel", unit_price := 5, item_quantity := 2, total_item_price := 10
    total_order_value_percentage := 50 }

/-- The raw row ordB emits for its one valid item, before the DataFrame
stage. -/
def rawB : RawRow :=
  { customer_id := 1, customer_name := PyVal.str "", registration_date := 20200101
    is_vip := false, order_id := "A1", order_id_num := 1, order_date := 20200102
    product_id := 1, product_name := PyVal.str "", category := "Misc", unit_price := 5
    item_quantity := 1, total_item_price := 5, total_order_value_percentage := 50 }

set_option maxRecDepth 100000 in
/-- Claim C3 witness: in an order whose second item fails identifier
validation, the emitted row's percentage denominator is still the total of
the full raw item list. -/
theorem c3_witness :
    (rawB.total_order_value_percentage =
      if total_order (ordB.items.getD []) = 0 then 0
      else rawB.total_item_price / total_order (ordB.items.getD []) * 100)
    ∧ ∀ (items : List Item) (v : Option PyVal),
        total_order (items.map (fun it => { it with item_id := v })) = total_order items :=
  c3_order_total_denominator (show rawB ∈ orderRows 1 (PyVal.str "") 20200101 false ordB by
    have hmem : orderRows 1 (PyVal.str "") 20200101 false ordB = [rawB] := by
      with_unfolding_all rfl
    rw [hmem]
    exact List.mem_singleton.mpr rfl)

/-- Claim C4 witness: the section-8 scenario output is sorted by the
recomputable key, product 10 before product 11. -/
theorem c4_witness :
    List.Pairwise (fun a b => keyLe (finalKey a) (finalKey b)) [out1a, out1b] :=
  c4_output_sorted (show flatten_data [cust1] [1] = Except.ok [out1a, out1b] by
    with_unfolding_all rfl)

/-- Claim C5 witness: the first section-8 scenario row has
total_item_price = unit_price * item_quantity = 10. -/
theorem c5_witness :
    out1a.total_item_price = out1a.unit_price * (out1a.item_quantity : ℚ) :=
  c5_total_item_price
    (show flatten_data [cust1] [1] = Except.ok [out1a, out1b] by with_unfolding_all rfl)
    (by simp)

/-- Claim C6 witness: the empty run with an empty VIP set aborts with
KeyError. -/
theorem c6_witness : flatten_data [] [] = Except.error "KeyError" :=
  c6_empty_input_aborts []

/-- Claim C9 witness: validating a one-row table returns that table. -/
theorem c9_witness : (validate_data [rowB]).1 = [rowB] :=
  c9_validator_frame [rowB]

/-- Claim C10 witness: two runs of the section-8 scenario agree. -/
theorem c10_witness :
    (Except.ok [out1a, out1b] : Except String (List FinalRow)) = Except.ok [out1a, out1b] :=
  c10_two_run_determinism [cust1] [1] (Except.ok [out1a, out1b]) (Except.ok [out1a, out1b])
    (by with_unfolding_all rfl) (by with_unfolding_all rfl)
